import Mathlib

/-!
Verification of the qonvo voice-session orchestrator core.

The definitions below are a shallow embedding of `src/core/voice.ts`,
`src/core/errors.ts` and the snapshot plumbing of `src/core/context.tsx`.
Module-level mutable state becomes an explicit `QState` record threaded
through the operations; every `await`ed engine call becomes an explicit
`Except RawError Unit` parameter carrying the outcome the engine reported;
`Date.now()` becomes an explicit time parameter, and `generateId()` a
counter drawn from the state.
-/

-- ---- Error taxonomy (src/core/errors.ts) ----

/-- The `VoiceErrorCode` union from `types.ts` / `errors.ts`. -/
inductive VoiceErrorCode
  | ABORTED
  | PERMISSION_DENIED
  | NOT_SUPPORTED
  | TTS_NOT_AVAILABLE
  | STT_NOT_AVAILABLE
  | NO_SPEECH
  | AUDIO_CAPTURE_FAILED
  | NETWORK_ERROR
  | TTS_FAILED
  | STT_FAILED
  | CONVERSATION_ERROR
  | INVALID_STATE
deriving DecidableEq, Repr

/-- The optional metadata flags carried by a `VoiceError`; `none` models an
unset (undefined) TypeScript field. -/
structure ErrorMeta where
  userAction : Option Bool := none
  needsPermission : Option Bool := none
  recoverable : Option Bool := none
deriving DecidableEq, Repr

/-- `enrichErrorMetadata` of `errors.ts`: sets the metadata flags from the
code alone (the switch statement, one case group per row). -/
def enrichErrorMetadata : VoiceErrorCode → ErrorMeta
  | .ABORTED => { userAction := some true, recoverable := some false }
  | .NO_SPEECH => { userAction := some false, recoverable := some true }
  | .PERMISSION_DENIED => { needsPermission := some true, recoverable := some true }
  | .NOT_SUPPORTED => { needsPermission := some true, recoverable := some true }
  | .TTS_NOT_AVAILABLE => { needsPermission := some true, recoverable := some true }
  | .STT_NOT_AVAILABLE => { needsPermission := some true, recoverable := some true }
  | .TTS_FAILED => { recoverable := some true }
  | .STT_FAILED => { recoverable := some true }
  | .AUDIO_CAPTURE_FAILED => { recoverable := some true }
  | .CONVERSATION_ERROR => { recoverable := some true }
  | .NETWORK_ERROR => { recoverable := some true }
  | .INVALID_STATE => { recoverable := some false }

/-- A `VoiceError`: an `Error` with a `code` and enrichment metadata.  The
`cause`/`context` fields are irrelevant to the claims and omitted. -/
structure VoiceError where
  code : VoiceErrorCode
  message : String
  meta : ErrorMeta
deriving DecidableEq, Repr

/-- `createVoiceError` of `errors.ts`: build the error and enrich it once,
at construction, from the code. -/
def createVoiceError (code : VoiceErrorCode) (message : String) : VoiceError :=
  { code := code, message := message, meta := enrichErrorMetadata code }

/-- A raw failure reaching `toVoiceError`: either already a `VoiceError`
(`isVoiceError` true), an `Error` named `AbortError`, or anything else. -/
inductive RawError
  | voice (e : VoiceError)
  | abortNamed (message : String)
  | plain (message : String)
deriving DecidableEq, Repr

/-- `toVoiceError` of `errors.ts`. -/
def toVoiceError (err : RawError) (defaultCode : VoiceErrorCode) : VoiceError :=
  match err with
  | .voice e => e
  | .abortNamed _ => createVoiceError .ABORTED "Operation was aborted"
  | .plain m => createVoiceError defaultCode m

/-- `SILENT_ERROR_CODES` of `errors.ts`. -/
def SILENT_ERROR_CODES : List VoiceErrorCode := [.ABORTED, .NO_SPEECH]

/-- `shouldLogError` of `errors.ts`. -/
def shouldLogError (e : VoiceError) : Bool :=
  !(SILENT_ERROR_CODES.contains e.code)

/-- `isSystemError` of `errors.ts`. -/
def isSystemError (e : VoiceError) : Bool :=
  [VoiceErrorCode.PERMISSION_DENIED, .NOT_SUPPORTED, .TTS_NOT_AVAILABLE,
    .STT_NOT_AVAILABLE].contains e.code

/-- `throwVoiceError` of `errors.ts`: returns the error to propagate to the
caller, or `none` when the code is `ABORTED` (swallowed). -/
def throwVoiceError (e : VoiceError) : Option VoiceError :=
  if e.code = .ABORTED then none else some e

-- ---- Transcript store (pure list part of src/core/voice.ts) ----

/-- Transcript roles. -/
inductive Role
  | user
  | assistant
deriving DecidableEq, Repr

/-- `TranscriptEntry` of `types.ts` (`at` is renamed `atTime`). -/
structure TranscriptEntry where
  id : Nat
  role : Role
  text : String
  atTime : Nat
  final : Bool
deriving DecidableEq, Repr

/-- The `findIndex`-and-replace step of `addInterimTranscript`: replace the
first interim entry of `role` in place, keeping its id, or report `none`
when no interim entry for that role exists. -/
def replaceFirstInterim (role : Role) (text : String) (t : Nat) :
    List TranscriptEntry → Option (List TranscriptEntry)
  | [] => none
  | e :: rest =>
    if e.role = role ∧ e.final = false then
      some ({ id := e.id, role := role, text := text, atTime := t, final := false } :: rest)
    else
      (replaceFirstInterim role text t rest).map (e :: ·)

/-- `addInterimTranscript` of `voice.ts` (list part): replace the existing
interim entry for the role with the latest cumulative text, or push a new
interim entry with a fresh id. -/
def addInterimTranscript (role : Role) (text : String) (freshId t : Nat)
    (tr : List TranscriptEntry) : List TranscriptEntry :=
  match replaceFirstInterim role text t tr with
  | some tr2 => tr2
  | none => tr ++ [{ id := freshId, role := role, text := text, atTime := t, final := false }]

/-- `addFinalTranscript` of `voice.ts` (list part): remove any interim
entries for the role, then append a final entry. -/
def addFinalTranscript (role : Role) (text : String) (freshId t : Nat)
    (tr : List TranscriptEntry) : List TranscriptEntry :=
  (tr.filter (fun e => decide (¬(e.role = role ∧ e.final = false)))) ++
    [{ id := freshId, role := role, text := text, atTime := t, final := true }]

/-- `TranscriptSnapshot` of `types.ts`. -/
structure TranscriptSnapshot where
  entries : List TranscriptEntry
  caption : Option String
deriving DecidableEq, Repr

/-- The snapshot computation of `getTranscriptSnapshot` in `voice.ts`:
entries are the final entries, the caption is the text of the latest
non-final entry. -/
def getTranscriptSnapshotView (tr : List TranscriptEntry) : TranscriptSnapshot :=
  let nonFinalEntries := tr.filter (fun e => !e.final)
  { entries := tr.filter (fun e => e.final)
    caption := (nonFinalEntries.getLast?).map (·.text) }

/-- Number of interim (non-final) entries for a role. -/
def interimCount (role : Role) (tr : List TranscriptEntry) : Nat :=
  (tr.filter (fun e => decide (e.role = role ∧ e.final = false))).length

/-- The transcript invariant: at most one interim entry per role. -/
def transcriptInvariant (tr : List TranscriptEntry) : Prop :=
  ∀ r : Role, interimCount r tr ≤ 1

/-- The transcript mutations reachable through the module's API. -/
inductive TranscriptOp
  | interim (role : Role) (text : String)
  | finalize (role : Role) (text : String)
  | clear
deriving DecidableEq, Repr

/-- Apply one transcript mutation (`freshId`/`t` stand for `generateId()` /
`Date.now()` at that call). -/
def applyTranscriptOp (freshId t : Nat) (op : TranscriptOp)
    (tr : List TranscriptEntry) : List TranscriptEntry :=
  match op with
  | .interim r s => addInterimTranscript r s freshId t tr
  | .finalize r s => addFinalTranscript r s freshId t tr
  | .clear => []

/-- Run a sequence of transcript mutations (each with its id/time) from a
starting transcript. -/
def runTranscriptOps : List ((Nat × Nat) × TranscriptOp) → List TranscriptEntry →
    List TranscriptEntry
  | [], tr => tr
  | (it, op) :: rest, tr => runTranscriptOps rest (applyTranscriptOp it.1 it.2 op tr)

-- ---- Phrase matching (src/core/voice.ts matchPhrase) ----

/-- `String.prototype.trim`: drop leading and trailing whitespace. -/
def jsTrim (cs : List Char) : List Char :=
  ((cs.dropWhile Char.isWhitespace).reverse.dropWhile Char.isWhitespace).reverse

/-- `replace(/\s+/g, ' ')`: collapse every whitespace run to one space.
The flag records whether the previous character was inside a run. -/
def collapseWhitespace : Bool → List Char → List Char
  | _, [] => []
  | prevWs, c :: rest =>
    if c.isWhitespace then
      if prevWs then collapseWhitespace true rest
      else ' ' :: collapseWhitespace true rest
    else c :: collapseWhitespace false rest

/-- The `normalize` closure inside `matchPhrase`:
`s.trim().toLowerCase().replace(/\s+/g, ' ')`. -/
def normalizePhrase (s : String) : String :=
  String.mk (collapseWhitespace false ((jsTrim s.toList).map Char.toLower))

/-- Whether `pre` is a prefix of a character list. -/
def listIsPrefixOf : List Char → List Char → Bool
  | [], _ => true
  | _ :: _, [] => false
  | a :: as, b :: bs => a = b && listIsPrefixOf as bs

/-- `String.prototype.includes`: substring containment. -/
def listContainsSub (needle : List Char) : List Char → Bool
  | [] => needle.isEmpty
  | c :: rest => listIsPrefixOf needle (c :: rest) || listContainsSub needle rest

/-- `matchPhrase` of `voice.ts`: case-insensitive, whitespace-normalized
substring containment. -/
def matchPhrase (text phrase : String) : Bool :=
  listContainsSub ((normalizePhrase phrase).toList) ((normalizePhrase text).toList)

-- ---- Phrase triggers (UnifiedRecognitionController) ----

/-- `this.triggers.set(phrase, callback)` on a JavaScript `Map` (callbacks
are identified by a number): overwrite the value of an existing key keeping
its position, else append, preserving insertion order. -/
def triggersSet (trs : List (String × Nat)) (phrase : String) (cb : Nat) :
    List (String × Nat) :=
  if trs.any (fun p => p.1 = phrase) then
    trs.map (fun p => if p.1 = phrase then (p.1, cb) else p)
  else trs ++ [(phrase, cb)]

/-- The trigger loop run on every final result in `startOnceMode` /
`startContinuousMode`: every registered phrase matching the result text
fires, in registration (map insertion) order. -/
def firedTriggers (trs : List (String × Nat)) (text : String) : List (String × Nat) :=
  trs.filter (fun p => matchPhrase text p.1)

-- ---- Conversation pacing (startConversation.onRecognition) ----

/-- `MIN_PAUSE_MS` in `startConversation`. -/
def MIN_PAUSE_MS : Nat := 500

/-- `DEFAULT_PAUSE_MS` in `startConversation`. -/
def DEFAULT_PAUSE_MS : Nat := 1000

/-- The effective pause computed in `onRecognition`:
`Math.max(loopOptions?.pauseMs ?? DEFAULT_PAUSE_MS, MIN_PAUSE_MS)`. -/
def conversationPauseMs (requested : Option Nat) : Nat :=
  max (requested.getD DEFAULT_PAUSE_MS) MIN_PAUSE_MS

/-- Outcome of one conversation-loop iteration. -/
inductive LoopStep
  | paced (waitMs : Nat)
  | terminated
  | continueNow
  | retryAfter (waitMs : Nat)
deriving DecidableEq, Repr

/-- One iteration of the conversation loop body (`startConversation`'s
do/while), with the user callback and synthesis abstracted as succeeding on
the success path: recognition succeeding leads to the anti-feedback pause
of `pauseMs`; otherwise the failure policy branches of the catch block. -/
def conversationIteration (pauseMs : Nat) (running : Bool)
    (recResult : Except VoiceError String) : LoopStep :=
  match recResult with
  | .ok _ => if running then .paced pauseMs else .terminated
  | .error e =>
    if e.code = .ABORTED ∨ running = false then .terminated
    else if e.code = .NO_SPEECH then .continueNow
    else if isSystemError e then .terminated
    else if e.meta.recoverable ≠ some true then .terminated
    else .retryAfter 1000

-- ---- Snapshots (src/core/voice.ts snapshot systems) ----

/-- `SynthesisSnapshot` of `types.ts`. -/
structure SynthesisSnapshot where
  isActive : Bool
  isPaused : Bool
  isAvailable : Bool
deriving DecidableEq, Repr

/-- `RecognitionSnapshot` of `types.ts`. -/
structure RecognitionSnapshot where
  isActive : Bool
  isAvailable : Bool
deriving DecidableEq, Repr

/-- `QonvoSnapshot` of `types.ts` (the readiness snapshot; its `error`
field exposes the recorded last error). -/
structure QonvoSnapshot where
  isReady : Bool
  errorSlot : Option VoiceError
deriving DecidableEq, Repr

-- ---- Session records ----

/-- Recognition session kind (`'one-shot' | 'continuous'`). -/
inductive RecKind
  | oneShot
  | continuous
deriving DecidableEq, Repr

/-- `RecognitionSession` of `voice.ts`; the `AbortController` is modelled
by a token id, signalled tokens being tracked in the state. -/
structure RecognitionSession where
  kind : RecKind
  tokenId : Nat
  startedAt : Nat
deriving DecidableEq, Repr

/-- `SynthesisSession` of `voice.ts`. -/
structure SynthesisSession where
  text : String
  tokenId : Nat
  startedAt : Nat
  pausedAt : Option Nat := none
deriving DecidableEq, Repr

/-- The module-level singleton state of `voice.ts` (and the logging flag of
`errors.ts`), made explicit.  Engine interactions are recorded: which abort
tokens were signalled, which engine calls were issued, and what was written
to the logging sink (`errorLog`) and to `console.error` for caught callback
failures (`consoleErrors`).  Listener callbacks are modelled separately;
here the `...Notifies` counters record how many times each domain's
listeners were notified (equivalently, how often its cache was
invalidated). -/
structure QState where
  sttBound : Bool := false
  ttsBound : Bool := false
  isReady : Bool := false
  isRecognitionAvailable : Bool := false
  isSynthesisAvailable : Bool := false
  transcript : List TranscriptEntry := []
  activeRecognitionSession : Option RecognitionSession := none
  activeSynthesisSession : Option SynthesisSession := none
  lastError : Option VoiceError := none
  errorLoggingEnabled : Bool := true
  cachedSynthesisSnapshot : Option SynthesisSnapshot := none
  cachedRecognitionSnapshot : Option RecognitionSnapshot := none
  cachedTranscriptSnapshot : Option TranscriptSnapshot := none
  cachedQonvoSnapshot : Option QonvoSnapshot := none
  synthesisNotifies : Nat := 0
  recognitionNotifies : Nat := 0
  transcriptNotifies : Nat := 0
  qonvoNotifies : Nat := 0
  errorLog : List (String × VoiceErrorCode) := []
  consoleErrors : Nat := 0
  signaledTokens : List Nat := []
  ttsStartCalls : List String := []
  ttsPauseCalls : Nat := 0
  ttsResumeCalls : Nat := 0
  ttsStopCalls : Nat := 0
  sttStartCalls : List Nat := []
  sttStopCalls : Nat := 0
  nextId : Nat := 0
deriving DecidableEq, Repr

/-- `setActiveSynthesisSession` of `voice.ts`: store the session, clear the
cached snapshot, and notify the synthesis listeners (the bare loop;
exception behaviour of that loop is modelled below for the listener
claims). -/
def setActiveSynthesisSession (s : Option SynthesisSession) (st : QState) : QState :=
  { st with activeSynthesisSession := s, cachedSynthesisSnapshot := none,
            synthesisNotifies := st.synthesisNotifies + 1 }

/-- `setActiveRecognitionSession` of `voice.ts`. -/
def setActiveRecognitionSession (s : Option RecognitionSession) (st : QState) : QState :=
  { st with activeRecognitionSession := s, cachedRecognitionSnapshot := none,
            recognitionNotifies := st.recognitionNotifies + 1 }

/-- `notifyTranscript` of `voice.ts`. -/
def notifyTranscript (st : QState) : QState :=
  { st with cachedTranscriptSnapshot := none,
            transcriptNotifies := st.transcriptNotifies + 1 }

/-- `notifyQonvo` of `voice.ts`. -/
def notifyQonvo (st : QState) : QState :=
  { st with cachedQonvoSnapshot := none, qonvoNotifies := st.qonvoNotifies + 1 }

/-- `setError` of `voice.ts`. -/
def setErrorState (e : Option VoiceError) (st : QState) : QState :=
  notifyQonvo { st with lastError := e }

/-- `getQonvoSnapshot` of `voice.ts`: return the cached snapshot if
present, else recompute and cache it. -/
def getQonvoSnapshot (st : QState) : QonvoSnapshot × QState :=
  match st.cachedQonvoSnapshot with
  | some s => (s, st)
  | none =>
    let s : QonvoSnapshot := { isReady := st.isReady, errorSlot := st.lastError }
    (s, { st with cachedQonvoSnapshot := some s })

/-- `getSynthesisSnapshot` of `voice.ts`. -/
def getSynthesisSnapshot (st : QState) : SynthesisSnapshot × QState :=
  match st.cachedSynthesisSnapshot with
  | some s => (s, st)
  | none =>
    let s : SynthesisSnapshot :=
      { isActive := st.activeSynthesisSession.isSome
        isPaused := (st.activeSynthesisSession.bind (·.pausedAt)).isSome
        isAvailable := st.isSynthesisAvailable }
    (s, { st with cachedSynthesisSnapshot := some s })

/-- `handleError` of `voice.ts`: record the error as the last error unless
its code is `ABORTED`, then invoke the per-operation and global `onError`
callbacks, each wrapped in try/catch (a caught callback failure only goes
to `console.error`).  The callback outcomes are supplied as parameters. -/
def handleError (e : VoiceError)
    (onErrOutcome globalOutcome : Option (Except String Unit)) (st : QState) : QState :=
  let st1 := if e.code ≠ .ABORTED then setErrorState (some e) st else st
  let st2 := match onErrOutcome with
  | some (.error _) => { st1 with consoleErrors := st1.consoleErrors + 1 }
  | _ => st1
  match globalOutcome with
  | some (.error _) => { st2 with consoleErrors := st2.consoleErrors + 1 }
  | _ => st2

/-- `logError` of `errors.ts`: skip when logging is disabled or the error
is silent, else write context and code to the sink. -/
def logError (e : VoiceError) (context : String) (st : QState) : QState :=
  if !st.errorLoggingEnabled then st
  else if !(shouldLogError e) then st
  else { st with errorLog := st.errorLog ++ [(context, e.code)] }

/-- `processVoiceError` of `errors.ts` as invoked from `voice.ts` (the
`handleError` of the module passed as the handler): normalize, handle, log
unless silent, and compute what is thrown (`throwVoiceError` swallows
`ABORTED`). -/
def processVoiceError (err : RawError) (context : String) (defaultCode : VoiceErrorCode)
    (onErrOutcome globalOutcome : Option (Except String Unit)) (shouldThrow : Bool)
    (st : QState) : QState × Option VoiceError :=
  let ve := toVoiceError err defaultCode
  let st1 := handleError ve onErrOutcome globalOutcome st
  let st2 := if shouldLogError ve then logError ve context st1 else st1
  if shouldThrow then (st2, throwVoiceError ve) else (st2, none)

/-- `addInterimTranscript` of `voice.ts` as a state operation (fresh id
from the counter, `Date.now()` passed in). -/
def addInterimTranscriptOp (role : Role) (text : String) (t : Nat) (st : QState) : QState :=
  notifyTranscript
    { st with transcript := addInterimTranscript role text st.nextId t st.transcript,
              nextId := st.nextId + 1 }

/-- `addFinalTranscript` of `voice.ts` as a state operation. -/
def addFinalTranscriptOp (role : Role) (text : String) (t : Nat) (st : QState) : QState :=
  notifyTranscript
    { st with transcript := addFinalTranscript role text st.nextId t st.transcript,
              nextId := st.nextId + 1 }

/-- `clearTranscript` of `voice.ts`. -/
def clearTranscriptOp (st : QState) : QState :=
  notifyTranscript { st with transcript := [] }

-- ---- Synthesis session manager (src/core/voice.ts) ----

/-- `stopSynthesis` of `voice.ts`.  Guard: no engine or no session is a
plain return.  Otherwise clear the session first, signal the session's
abort token, call `tts.stop()` (its outcome is the `stopResult` parameter),
and catch any failure: log it when not silent and never re-throw.  The
second component is what propagates to the caller — always `none`. -/
def stopSynthesis (stopResult : Except RawError Unit) (st : QState) :
    QState × Option VoiceError :=
  if !st.ttsBound then (st, none)
  else match st.activeSynthesisSession with
  | none => (st, none)
  | some session =>
    let st1 := setActiveSynthesisSession none st
    let st2 := { st1 with signaledTokens := st1.signaledTokens ++ [session.tokenId],
                          ttsStopCalls := st1.ttsStopCalls + 1 }
    match stopResult with
    | .ok _ => (st2, none)
    | .error err =>
      let voiceError := toVoiceError err .TTS_FAILED
      if shouldLogError voiceError then (logError voiceError "stopSynthesis" st2, none)
      else (st2, none)

/-- `pauseSynthesis` of `voice.ts`.  Guard: no engine or no session (the
paused flag is not consulted).  On engine success mark the session paused
at the current time and re-publish it; on failure log and throw (the
`throwVoiceError` helper swallowing `ABORTED`). -/
def pauseSynthesis (t : Nat) (pauseResult : Except RawError Unit) (st : QState) :
    QState × Option VoiceError :=
  if !st.ttsBound then (st, none)
  else match st.activeSynthesisSession with
  | none => (st, none)
  | some session =>
    let st1 := { st with ttsPauseCalls := st.ttsPauseCalls + 1 }
    match pauseResult with
    | .ok _ =>
      (setActiveSynthesisSession (some { session with pausedAt := some t }) st1, none)
    | .error err =>
      let voiceError := toVoiceError err .TTS_FAILED
      (logError voiceError "pause" st1, throwVoiceError voiceError)

/-- `resumeSynthesis` of `voice.ts`.  Guard: no engine or no session or the
session is not paused (`!activeSynthesisSession?.pausedAt`).  On engine
success clear the paused mark and re-publish; on failure log and throw. -/
def resumeSynthesis (resumeResult : Except RawError Unit) (st : QState) :
    QState × Option VoiceError :=
  if !st.ttsBound then (st, none)
  else match st.activeSynthesisSession with
  | none => (st, none)
  | some session =>
    match session.pausedAt with
    | none => (st, none)
    | some _ =>
      let st1 := { st with ttsResumeCalls := st.ttsResumeCalls + 1 }
      match resumeResult with
      | .ok _ =>
        (setActiveSynthesisSession (some { session with pausedAt := none }) st1, none)
      | .error err =>
        let voiceError := toVoiceError err .TTS_FAILED
        (logError voiceError "resume" st1, throwVoiceError voiceError)

/-- `startSynthesis` of `voice.ts`, modelled over the whole awaited call:
throw `TTS_NOT_AVAILABLE` when no engine; stop any existing session; create
and publish the new session; clear the last error; record the assistant
text as a final transcript entry; issue the engine start whose outcome is
`startResult`; on failure run `processVoiceError` (handle, log, re-throw
unless `ABORTED`); and in the `finally` clear the session. -/
def startSynthesis (text : String) (t : Nat)
    (stopResult startResult : Except RawError Unit)
    (onErrOutcome globalOutcome : Option (Except String Unit)) (st : QState) :
    QState × Option VoiceError :=
  if !st.ttsBound then
    (st, some (createVoiceError .TTS_NOT_AVAILABLE "Text-to-speech not available"))
  else
    let st1 := if st.activeSynthesisSession.isSome then (stopSynthesis stopResult st).1 else st
    let session : SynthesisSession := { text := text, tokenId := st1.nextId, startedAt := t }
    let st2 := { st1 with nextId := st1.nextId + 1 }
    let st3 := setActiveSynthesisSession (some session) st2
    let st4 := setErrorState none st3
    let st5 := addFinalTranscriptOp .assistant text t st4
    let st6 := { st5 with ttsStartCalls := st5.ttsStartCalls ++ [text] }
    match startResult with
    | .ok _ => (setActiveSynthesisSession none st6, none)
    | .error err =>
      let r := processVoiceError err "startSynthesis" .TTS_FAILED onErrOutcome
        globalOutcome true st6
      (setActiveSynthesisSession none r.1, r.2)

-- ---- Recognition session manager (src/core/voice.ts) ----

/-- `stopRecognition` of `voice.ts`: same shape as `stopSynthesis` — guard
on engine and session, clear state first, signal the token, call
`stt.stop()`, log non-silent failures, never re-throw. -/
def stopRecognition (stopResult : Except RawError Unit) (st : QState) :
    QState × Option VoiceError :=
  if !st.sttBound then (st, none)
  else match st.activeRecognitionSession with
  | none => (st, none)
  | some session =>
    let st1 := setActiveRecognitionSession none st
    let st2 := { st1 with signaledTokens := st1.signaledTokens ++ [session.tokenId],
                          sttStopCalls := st1.sttStopCalls + 1 }
    match stopResult with
    | .ok _ => (st2, none)
    | .error err =>
      let voiceError := toVoiceError err .STT_FAILED
      if shouldLogError voiceError then (logError voiceError "stopRecognition" st2, none)
      else (st2, none)

/-- `startRecognition` of `voice.ts` together with the synchronous part of
the `UnifiedRecognitionController` constructor: throw `STT_NOT_AVAILABLE`
when no engine; when a session is active, first `setActiveRecognitionSession(null)`
and then call `stopRecognition()` fire-and-forget (exactly in that order,
as in the source); then create the new session record, publish it, clear
the last error, and issue the engine start call for the new token.
`staleStopResult` is the outcome `stt.stop()` would report if it were
reached inside that `stopRecognition` call. -/
def startRecognition (kind : RecKind) (t : Nat)
    (staleStopResult : Except RawError Unit) (st : QState) :
    QState × Option VoiceError :=
  if !st.sttBound then
    (st, some (createVoiceError .STT_NOT_AVAILABLE "Speech recognition not available"))
  else
    let st1 := if st.activeRecognitionSession.isSome then
        (stopRecognition staleStopResult (setActiveRecognitionSession none st)).1
      else st
    let session : RecognitionSession := { kind := kind, tokenId := st1.nextId, startedAt := t }
    let st2 := { st1 with nextId := st1.nextId + 1 }
    let st3 := setActiveRecognitionSession (some session) st2
    let st4 := setErrorState none st3
    ({ st4 with sttStartCalls := st4.sttStartCalls ++ [session.tokenId] }, none)

-- ---- Listener notification (src/core/voice.ts notify helpers) ----

instance : DecidableEq (Except String Unit) := fun a b =>
  match a, b with
  | .ok (), .ok () => isTrue rfl
  | .ok (), .error _ => isFalse (fun h => Except.noConfusion h)
  | .error _, .ok () => isFalse (fun h => Except.noConfusion h)
  | .error m, .error m2 =>
    if h : m = m2 then isTrue (by rw [h])
    else isFalse (fun hh => h (Except.error.inj hh))

/-- A registered listener: an identifying number and the outcome of
invoking it (`.error` models a thrown exception). -/
structure NListener where
  id : Nat
  outcome : Except String Unit
deriving DecidableEq, Repr

/-- The loop of the `notify*` helpers (`notifySynthesis`,
`notifyRecognition`, `notifyTranscript`, `notifyQonvo`,
`notifyConversation`): each listener invocation is wrapped in try/catch, a
caught failure only goes to `console.error`.  Returns the ids invoked (in
order) and the number of caught exceptions. -/
def runListenersIsolated : List NListener → List Nat × Nat
  | [] => ([], 0)
  | l :: rest =>
    let r := runListenersIsolated rest
    (l.id :: r.1, match l.outcome with | .ok _ => r.2 | .error _ => r.2 + 1)

/-- The loop of `setActiveSynthesisSession` / `setActiveRecognitionSession`:
listeners are invoked bare, with no try/catch.  Returns the ids invoked
before the first exception and the propagated exception, if any. -/
def runListenersBare : List NListener → List Nat × Option String
  | [] => ([], none)
  | l :: rest =>
    match l.outcome with
    | .ok _ =>
      let r := runListenersBare rest
      (l.id :: r.1, r.2)
    | .error m => ([l.id], some m)

/-- A `notify*` helper with its listener set made explicit: clear the
cached snapshot, then run every listener isolated.  Returns the
invalidated cache, the invoked ids, and the caught-exception count; the
function always returns (the mutation completes). -/
def notifyDomain {α : Type} (_cache : Option α) (ls : List NListener) :
    Option α × List Nat × Nat :=
  (none, runListenersIsolated ls)

/-- `setActiveSynthesisSession` with its listener set made explicit
(mirroring lines 90–96 of `voice.ts`): assign the session, clear the
cache, then invoke each listener with no try/catch.  The last component is
the exception escaping the mutation, if a listener threw. -/
def setActiveSynthesisSessionWithListeners (s : Option SynthesisSession)
    (ls : List NListener) (st : QState) : QState × List Nat × Option String :=
  let r := runListenersBare ls
  ({ st with activeSynthesisSession := s, cachedSynthesisSnapshot := none }, r.1, r.2)

-- ---- Concrete states used by the concrete-input theorems ----

/-- A state with both engines bound and available (the state after
platform binding and `refreshAvailability`). -/
def qReady : QState :=
  { sttBound := true, ttsBound := true, isReady := true,
    isRecognitionAvailable := true, isSynthesisAvailable := true }

/-- The state after one `startRecognition()` call on the ready state. -/
def stateAfterFirstStart : QState :=
  (startRecognition .continuous 0 (Except.ok ()) qReady).1

/-- The state after a second `startRecognition()` call, issued while the
first session is still active. -/
def stateAfterSecondStart : QState :=
  (startRecognition .continuous 1 (Except.ok ()) stateAfterFirstStart).1

/-- A synthesis session that is already paused (at time 5). -/
def pausedSession : SynthesisSession :=
  { text := "hello", tokenId := 0, startedAt := 0, pausedAt := some 5 }

/-- A ready state whose synthesis session is already paused. -/
def pausedState : QState := { qReady with activeSynthesisSession := some pausedSession }

/-- A `NO_SPEECH` voice error (as the engines produce via the platform
error mapper). -/
def noSpeechError : VoiceError := createVoiceError .NO_SPEECH "No speech detected"

-- ---- Helper lemmas ----

theorem logError_transcript (e : VoiceError) (c : String) (st : QState) :
    (logError e c st).transcript = st.transcript := by
  unfold logError
  split
  · rfl
  · split <;> rfl

theorem logError_nextId (e : VoiceError) (c : String) (st : QState) :
    (logError e c st).nextId = st.nextId := by
  unfold logError
  split
  · rfl
  · split <;> rfl

theorem logError_ttsBound (e : VoiceError) (c : String) (st : QState) :
    (logError e c st).ttsBound = st.ttsBound := by
  unfold logError
  split
  · rfl
  · split <;> rfl

theorem logError_activeSynthesisSession (e : VoiceError) (c : String) (st : QState) :
    (logError e c st).activeSynthesisSession = st.activeSynthesisSession := by
  unfold logError
  split
  · rfl
  · split <;> rfl

theorem logError_silent (e : VoiceError) (c : String) (st : QState)
    (hsilent : shouldLogError e = false) : logError e c st = st := by
  unfold logError
  rw [hsilent]
  simp

theorem handleError_lastError (e : VoiceError)
    (cb g : Option (Except String Unit)) (st : QState) :
    (handleError e cb g st).lastError =
      if e.code = .ABORTED then st.lastError else some e := by
  unfold handleError setErrorState notifyQonvo
  rcases cb with _ | (m | u) <;> rcases g with _ | (m2 | u2) <;>
    by_cases h : e.code = .ABORTED <;> simp [h]

theorem handleError_transcript (e : VoiceError)
    (cb g : Option (Except String Unit)) (st : QState) :
    (handleError e cb g st).transcript = st.transcript := by
  unfold handleError setErrorState notifyQonvo
  rcases cb with _ | (m | u) <;> rcases g with _ | (m2 | u2) <;>
    by_cases h : e.code = .ABORTED <;> simp [h]

theorem handleError_activeSynthesisSession (e : VoiceError)
    (cb g : Option (Except String Unit)) (st : QState) :
    (handleError e cb g st).activeSynthesisSession = st.activeSynthesisSession := by
  unfold handleError setErrorState notifyQonvo
  rcases cb with _ | (m | u) <;> rcases g with _ | (m2 | u2) <;>
    by_cases h : e.code = .ABORTED <;> simp [h]

theorem stopSynthesis_transcript (r : Except RawError Unit) (st : QState) :
    (stopSynthesis r st).1.transcript = st.transcript := by
  unfold stopSynthesis setActiveSynthesisSession
  repeat' split
  all_goals simp [apply_ite, logError_transcript]

theorem stopSynthesis_nextId (r : Except RawError Unit) (st : QState) :
    (stopSynthesis r st).1.nextId = st.nextId := by
  unfold stopSynthesis setActiveSynthesisSession
  repeat' split
  all_goals simp [apply_ite, logError_nextId]

theorem stopSynthesis_ttsBound (r : Except RawError Unit) (st : QState) :
    (stopSynthesis r st).1.ttsBound = st.ttsBound := by
  unfold stopSynthesis setActiveSynthesisSession
  repeat' split
  all_goals simp [apply_ite, logError_ttsBound]

theorem runListenersIsolated_ids (ls : List NListener) :
    (runListenersIsolated ls).1 = ls.map (·.id) := by
  induction ls with
  | nil => rfl
  | cons l rest ih => simp [runListenersIsolated, ih]

-- ---- Claim theorems ----

/-- C4: VoiceError enrichment is a pure function of the code applied once
at construction.  `ABORTED` yields `userAction=true, recoverable=false`;
`NO_SPEECH` yields `userAction=false, recoverable=true`; the
permission/availability codes yield `needsPermission=true,
recoverable=true`; `INVALID_STATE` yields `recoverable=false`. -/
theorem voiceError_enrichment_table :
    (∀ (c : VoiceErrorCode) (m : String),
      (createVoiceError c m).meta = enrichErrorMetadata c ∧ (createVoiceError c m).code = c) ∧
    enrichErrorMetadata .ABORTED =
      { userAction := some true, needsPermission := none, recoverable := some false } ∧
    enrichErrorMetadata .NO_SPEECH =
      { userAction := some false, needsPermission := none, recoverable := some true } ∧
    enrichErrorMetadata .PERMISSION_DENIED =
      { userAction := none, needsPermission := some true, recoverable := some true } ∧
    enrichErrorMetadata .NOT_SUPPORTED =
      { userAction := none, needsPermission := some true, recoverable := some true } ∧
    enrichErrorMetadata .TTS_NOT_AVAILABLE =
      { userAction := none, needsPermission := some true, recoverable := some true } ∧
    enrichErrorMetadata .STT_NOT_AVAILABLE =
      { userAction := none, needsPermission := some true, recoverable := some true } ∧
    enrichErrorMetadata .INVALID_STATE =
      { userAction := none, needsPermission := none, recoverable := some false } := by
  exact ⟨fun c m => ⟨rfl, rfl⟩, rfl, rfl, rfl, rfl, rfl, rfl, rfl⟩

/-- C5: the pause applied after a successful conversation-loop iteration is
`max(requestedPauseMs, 500)` with default requested value 1000 ms; in
particular a requested `pauseMs: 100` is clamped to 500 ms, and the loop
always waits at least 500 ms. -/
theorem conversation_pause_clamping :
    conversationPauseMs (some 100) = 500 ∧
    conversationPauseMs none = 1000 ∧
    (∀ req : Option Nat, MIN_PAUSE_MS ≤ conversationPauseMs req) ∧
    (∀ (req : Option Nat) (s : String),
      conversationIteration (conversationPauseMs req) true (.ok s) =
        .paced (max (req.getD 1000) 500)) := by
  refine ⟨by decide, by decide, ?_, ?_⟩
  · intro req
    exact le_max_right _ _
  · intro req s
    rfl

/-- C8: on a final recognition result, every registered phrase trigger is
tested with case-insensitive whitespace-normalized substring containment;
all matching callbacks fire, in registration order.  In particular,
triggers "yes" and "yes please" both fire on the result "yes please". -/
theorem phrase_trigger_matching :
    firedTriggers (triggersSet (triggersSet [] "yes" 0) "yes please" 1) "yes please" =
      [("yes", 0), ("yes please", 1)] ∧
    (∀ (trs : List (String × Nat)) (text p : String) (c : Nat),
      (p, c) ∈ firedTriggers trs text ↔ (p, c) ∈ trs ∧ matchPhrase text p = true) ∧
    (∀ (trs : List (String × Nat)) (text : String),
      List.Sublist (firedTriggers trs text) trs) := by
  refine ⟨by decide, ?_, ?_⟩
  · intro trs text p c
    simp [firedTriggers, List.mem_filter]
  · intro trs text
    exact List.filter_sublist trs

/-- C6 counterexample: a mutation routed through `setActiveSynthesisSession`
does not isolate listener exceptions — with listeners [0 (throws), 1], only
listener 0 runs and the exception escapes the mutation, whereas the
isolated `notify*` loop runs both. -/
theorem setActiveSession_listener_throw_not_isolated :
    runListenersBare [⟨0, .error "boom"⟩, ⟨1, .ok ()⟩] = ([0], some "boom") ∧
    (setActiveSynthesisSessionWithListeners none [⟨0, .error "boom"⟩, ⟨1, .ok ()⟩] qReady).2 =
      ([0], some "boom") ∧
    runListenersIsolated [⟨0, .error "boom"⟩, ⟨1, .ok ()⟩] = ([0, 1], 1) := by
  exact ⟨rfl, rfl, rfl⟩

/-- C6 amended: the notify helpers (`notifySynthesis`, `notifyRecognition`,
`notifyTranscript`, `notifyQonvo`, `notifyConversation`) invoke every
registered listener and isolate listener exceptions (the cache is still
invalidated and the mutation completes); the bare loops in
`setActiveSynthesisSession`/`setActiveRecognitionSession` do not share this
property. -/
theorem notify_listener_exception_isolation :
    ∀ (ls : List NListener) (cache : Option SynthesisSnapshot),
      (notifyDomain cache ls).2.1 = ls.map (·.id) ∧ (notifyDomain cache ls).1 = none := by
  intro ls cache
  exact ⟨runListenersIsolated_ids ls, rfl⟩

/-- C1: evaluating the code at the failing input — two consecutive
`startRecognition()` calls with a session active.  The claim says the prior
session's cancellation token is signaled before the new engine start call;
the code instead clears the session record first, so the inner
`stopRecognition()` early-returns: no token is ever signaled and
`stt.stop()` is never called, while the new engine start (token 1) is
issued. -/
theorem recognition_supersession_skips_cancellation :
    stateAfterFirstStart.activeRecognitionSession =
      some { kind := .continuous, tokenId := 0, startedAt := 0 } ∧
    stateAfterSecondStart.signaledTokens = [] ∧
    stateAfterSecondStart.sttStopCalls = 0 ∧
    stateAfterSecondStart.sttStartCalls = [0, 1] ∧
    stateAfterSecondStart.activeRecognitionSession =
      some { kind := .continuous, tokenId := 1, startedAt := 1 } := by
  exact ⟨by decide, by decide, by decide, by decide, by decide⟩

/-- C2 counterexample: a `NO_SPEECH` error routed through `handleError`
(the error pipeline's handler) becomes the recorded last error, observable
via the readiness snapshot — contradicting the claim that `NO_SPEECH`
never becomes the recorded last error. -/
theorem no_speech_becomes_lastError :
    (handleError noSpeechError none none qReady).lastError = some noSpeechError ∧
    (getQonvoSnapshot (handleError noSpeechError none none qReady)).1.errorSlot =
      some noSpeechError ∧
    noSpeechError.code = .NO_SPEECH := by
  exact ⟨by decide, by decide, rfl⟩

/-- C2 amended: the silent codes `ABORTED` and `NO_SPEECH` are never passed
to the logging sink; `ABORTED` never becomes the recorded last error; but
`NO_SPEECH`, when routed through `handleError`, does become the recorded
last error (only the recognition call sites filter it out before the
pipeline). -/
theorem silent_code_logging_and_lastError_policy :
    ∀ (cb g : Option (Except String Unit)) (ctx m : String) (st : QState),
      logError (createVoiceError .ABORTED m) ctx st = st ∧
      logError (createVoiceError .NO_SPEECH m) ctx st = st ∧
      (handleError (createVoiceError .ABORTED m) cb g st).lastError = st.lastError ∧
      (handleError (createVoiceError .NO_SPEECH m) cb g st).lastError =
        some (createVoiceError .NO_SPEECH m) := by
  intro cb g ctx m st
  refine ⟨logError_silent _ _ _ rfl, logError_silent _ _ _ rfl, ?_, ?_⟩
  · rw [handleError_lastError]
    exact if_pos rfl
  · rw [handleError_lastError]
    exact if_neg (by intro h; exact VoiceErrorCode.noConfusion h)

/-- C9 counterexample: `pause()` on an already-paused session is not a
no-op — the guard checks only engine and session, not the paused flag.
On a session paused at time 5, pausing again at time 9 re-invokes the
engine's pause, overwrites `pausedAt` with 9 and republishes the session,
contradicting the claim that pause acts only when the session is not
already paused. -/
theorem pause_on_paused_session_not_noop :
    pausedSession.pausedAt = some 5 ∧
    (pauseSynthesis 9 (Except.ok ()) pausedState).1.ttsPauseCalls = 1 ∧
    ((pauseSynthesis 9 (Except.ok ()) pausedState).1.activeSynthesisSession.bind (·.pausedAt)) =
      some 9 ∧
    (pauseSynthesis 9 (Except.ok ()) pausedState).1.synthesisNotifies =
      pausedState.synthesisNotifies + 1 := by
  exact ⟨rfl, by decide, by decide, by decide⟩

/-- C9 amended: `pause()` acts whenever the engine is bound and a session
exists, even if the session is already paused (re-pausing overwrites
`pausedAt` and republishes); `resume()` acts only when a session exists and
is paused; both mutate `pausedAt` on the existing session record (text,
token and start time preserved) and neither ever creates a new session
(with no session both are no-ops that leave the state untouched). -/
theorem pause_resume_guards_and_mutation :
    ∀ (t u : Nat) (r : Except RawError Unit) (st : QState) (s : SynthesisSession),
      pauseSynthesis t r { st with activeSynthesisSession := none } =
        ({ st with activeSynthesisSession := none }, none) ∧
      resumeSynthesis r { st with activeSynthesisSession := none } =
        ({ st with activeSynthesisSession := none }, none) ∧
      resumeSynthesis r
          { st with ttsBound := true, activeSynthesisSession := some { s with pausedAt := none } } =
        ({ st with ttsBound := true, activeSynthesisSession := some { s with pausedAt := none } },
          none) ∧
      (pauseSynthesis t (Except.ok ())
          { st with ttsBound := true, activeSynthesisSession := some s }).1.activeSynthesisSession =
        some { s with pausedAt := some t } ∧
      (resumeSynthesis (Except.ok ())
          { st with ttsBound := true,
                    activeSynthesisSession := some { s with pausedAt := some u } }).1.activeSynthesisSession =
        some { s with pausedAt := none } := by
  intro t u r st s
  refine ⟨?_, ?_, ?_, ?_, ?_⟩
  · unfold pauseSynthesis
    split <;> rfl
  · unfold resumeSynthesis
    split <;> rfl
  · unfold resumeSynthesis
    rfl
  · unfold pauseSynthesis setActiveSynthesisSession
    rfl
  · unfold resumeSynthesis setActiveSynthesisSession
    rfl

/-- C7: `stop()` always succeeds from the caller's perspective for both
session categories — nothing is ever re-raised; with no active session it
is a no-op that does not invalidate or republish any snapshot (the state is
returned unchanged); with an active session the session is cleared, the
token signaled, the engine stop issued, and an engine-level stop failure is
only written to the logging sink (per the logging policy). -/
theorem stop_always_succeeds :
    ∀ (r : Except RawError Unit) (e : RawError) (st : QState)
      (s : SynthesisSession) (rs : RecognitionSession),
      (stopSynthesis r st).2 = none ∧
      (stopRecognition r st).2 = none ∧
      stopSynthesis r { st with activeSynthesisSession := none } =
        ({ st with activeSynthesisSession := none }, none) ∧
      stopRecognition r { st with activeRecognitionSession := none } =
        ({ st with activeRecognitionSession := none }, none) ∧
      stopSynthesis (.error e) { st with ttsBound := true, activeSynthesisSession := some s } =
        (logError (toVoiceError e .TTS_FAILED) "stopSynthesis"
          { st with ttsBound := true, activeSynthesisSession := none,
                    cachedSynthesisSnapshot := none,
                    synthesisNotifies := st.synthesisNotifies + 1,
                    signaledTokens := st.signaledTokens ++ [s.tokenId],
                    ttsStopCalls := st.ttsStopCalls + 1 }, none) ∧
      stopRecognition (.error e) { st with sttBound := true, activeRecognitionSession := some rs } =
        (logError (toVoiceError e .STT_FAILED) "stopRecognition"
          { st with sttBound := true, activeRecognitionSession := none,
                    cachedRecognitionSnapshot := none,
                    recognitionNotifies := st.recognitionNotifies + 1,
                    signaledTokens := st.signaledTokens ++ [rs.tokenId],
                    sttStopCalls := st.sttStopCalls + 1 }, none) := by
  intro r e st s rs
  refine ⟨?_, ?_, ?_, ?_, ?_, ?_⟩
  · unfold stopSynthesis setActiveSynthesisSession
    repeat' split
    all_goals simp [apply_ite]
  · unfold stopRecognition setActiveRecognitionSession
    repeat' split
    all_goals simp [apply_ite]
  · unfold stopSynthesis
    split <;> rfl
  · unfold stopRecognition
    split <;> rfl
  · unfold stopSynthesis setActiveSynthesisSession
    by_cases hL : shouldLogError (toVoiceError e .TTS_FAILED) = true
    · simp [hL]
    · have hL2 : shouldLogError (toVoiceError e .TTS_FAILED) = false := by
        revert hL
        cases shouldLogError (toVoiceError e .TTS_FAILED) <;> simp
      rw [logError_silent _ _ _ hL2]
      simp [hL2]
  · unfold stopRecognition setActiveRecognitionSession
    by_cases hL : shouldLogError (toVoiceError e .STT_FAILED) = true
    · simp [hL]
    · have hL2 : shouldLogError (toVoiceError e .STT_FAILED) = false := by
        revert hL
        cases shouldLogError (toVoiceError e .STT_FAILED) <;> simp
      rw [logError_silent _ _ _ hL2]
      simp [hL2]

theorem processVoiceError_transcript (err : RawError) (c : String) (d : VoiceErrorCode)
    (cb g : Option (Except String Unit)) (thr : Bool) (st : QState) :
    (processVoiceError err c d cb g thr st).1.transcript = st.transcript := by
  unfold processVoiceError
  repeat' split
  all_goals simp [apply_ite, logError_transcript, handleError_transcript]

theorem processVoiceError_snd (err : RawError) (c : String) (d : VoiceErrorCode)
    (cb g : Option (Except String Unit)) (st : QState) :
    (processVoiceError err c d cb g true st).2 = throwVoiceError (toVoiceError err d) := by
  unfold processVoiceError
  repeat' split
  all_goals simp_all

/-- C10: when the synthesis engine's start call fails after `startSynthesis`
has begun, the final assistant transcript entry recorded before the engine
call remains (the transcript write is not rolled back — it stays the last
transcript entry), while the synthesis session record itself is cleared;
the failure propagates to the caller per `throwVoiceError` (swallowed only
for `ABORTED`). -/
theorem startSynthesis_failure_keeps_transcript_clears_session :
    ∀ (text : String) (t : Nat) (e : RawError) (stopR : Except RawError Unit)
      (cb g : Option (Except String Unit)) (st : QState),
      (startSynthesis text t stopR (.error e) cb g
          { st with ttsBound := true }).1.activeSynthesisSession = none ∧
      (startSynthesis text t stopR (.error e) cb g
          { st with ttsBound := true }).1.transcript.getLast? =
        some { id := st.nextId + 1, role := .assistant, text := text, atTime := t,
               final := true } ∧
      (startSynthesis text t stopR (.error e) cb g { st with ttsBound := true }).2 =
        throwVoiceError (toVoiceError e .TTS_FAILED) := by
  intro text t e stopR cb g st
  refine ⟨?_, ?_, ?_⟩
  · unfold startSynthesis setActiveSynthesisSession
    repeat' split
    all_goals simp_all
  · unfold startSynthesis setActiveSynthesisSession setErrorState notifyQonvo
      addFinalTranscriptOp notifyTranscript
    repeat' split
    all_goals simp_all [processVoiceError_transcript, stopSynthesis_transcript,
      stopSynthesis_nextId, addFinalTranscript, List.getLast?_concat]
  · unfold startSynthesis
    repeat' split
    all_goals simp_all [processVoiceError_snd]

theorem interimCount_nil (r : Role) : interimCount r [] = 0 := rfl

theorem interimCount_cons (r : Role) (e : TranscriptEntry) (tr : List TranscriptEntry) :
    interimCount r (e :: tr) =
      (if e.role = r ∧ e.final = false then 1 else 0) + interimCount r tr := by
  by_cases h : e.role = r ∧ e.final = false <;>
    simp [interimCount, List.filter_cons, h, Nat.add_comm]

theorem interimCount_append (r : Role) (l1 l2 : List TranscriptEntry) :
    interimCount r (l1 ++ l2) = interimCount r l1 + interimCount r l2 := by
  simp [interimCount, List.filter_append]

theorem replaceFirstInterim_some_count (role : Role) (text : String) (t : Nat)
    (tr tr2 : List TranscriptEntry) (h : replaceFirstInterim role text t tr = some tr2) :
    ∀ r0 : Role, interimCount r0 tr2 = interimCount r0 tr := by
  induction tr generalizing tr2 with
  | nil => simp [replaceFirstInterim] at h
  | cons e rest ih =>
    unfold replaceFirstInterim at h
    by_cases hc : e.role = role ∧ e.final = false
    · rw [if_pos hc] at h
      obtain rfl := Option.some.inj h
      intro r0
      rw [interimCount_cons, interimCount_cons]
      by_cases hr0 : role = r0 <;> simp [hc.1, hc.2, hr0]
    · rw [if_neg hc] at h
      obtain ⟨rest2, hrest, rfl⟩ := Option.map_eq_some'.mp h
      intro r0
      rw [interimCount_cons, interimCount_cons, ih rest2 hrest r0]

theorem replaceFirstInterim_none_count (role : Role) (text : String) (t : Nat)
    (tr : List TranscriptEntry) (h : replaceFirstInterim role text t tr = none) :
    interimCount role tr = 0 := by
  induction tr with
  | nil => rfl
  | cons e rest ih =>
    unfold replaceFirstInterim at h
    by_cases hc : e.role = role ∧ e.final = false
    · rw [if_pos hc] at h
      exact absurd h (by simp)
    · rw [if_neg hc] at h
      rw [interimCount_cons, if_neg (by tauto), Nat.zero_add]
      exact ih (Option.map_eq_none'.mp h)

theorem transcriptInvariant_addInterim (role : Role) (text : String) (i t : Nat)
    (tr : List TranscriptEntry) (h : transcriptInvariant tr) :
    transcriptInvariant (addInterimTranscript role text i t tr) := by
  unfold addInterimTranscript
  cases hr : replaceFirstInterim role text t tr with
  | some tr2 =>
    intro r0
    rw [replaceFirstInterim_some_count role text t tr tr2 hr r0]
    exact h r0
  | none =>
    intro r0
    rw [interimCount_append]
    by_cases hr0 : role = r0
    · subst hr0
      rw [replaceFirstInterim_none_count role text t tr hr]
      simp [interimCount_cons, interimCount_nil]
    · have h1 : interimCount r0 [TranscriptEntry.mk i role text t false] = 0 := by
        rw [interimCount_cons, if_neg (by simp; intro hcon; exact absurd hcon hr0),
          interimCount_nil]
      rw [h1]
      simpa using h r0

theorem interimCount_addFinal_self (role : Role) (text : String) (i t : Nat)
    (tr : List TranscriptEntry) :
    interimCount role (addFinalTranscript role text i t tr) = 0 := by
  unfold addFinalTranscript
  rw [interimCount_append]
  have h2 : interimCount role [TranscriptEntry.mk i role text t true] = 0 := by
    rw [interimCount_cons, if_neg (by simp), interimCount_nil]
  have h1 : interimCount role
      (tr.filter (fun e => decide (¬(e.role = role ∧ e.final = false)))) = 0 := by
    simp only [interimCount, List.filter_filter]
    have : ∀ e : TranscriptEntry,
        (decide (e.role = role ∧ e.final = false) &&
          decide (¬(e.role = role ∧ e.final = false))) = false := by
      intro e
      by_cases hc : e.role = role ∧ e.final = false <;> simp [hc]
    simp [this]
  rw [h1, h2]

theorem interimCount_addFinal_le (r0 role : Role) (text : String) (i t : Nat)
    (tr : List TranscriptEntry) :
    interimCount r0 (addFinalTranscript role text i t tr) ≤ interimCount r0 tr := by
  unfold addFinalTranscript
  rw [interimCount_append]
  have h2 : interimCount r0 [TranscriptEntry.mk i role text t true] = 0 := by
    rw [interimCount_cons, if_neg (by simp), interimCount_nil]
  rw [h2, Nat.add_zero]
  exact List.Sublist.length_le
    (List.Sublist.filter _ (List.filter_sublist tr))

theorem transcriptInvariant_addFinal (role : Role) (text : String) (i t : Nat)
    (tr : List TranscriptEntry) (h : transcriptInvariant tr) :
    transcriptInvariant (addFinalTranscript role text i t tr) := by
  intro r0
  exact Nat.le_trans (interimCount_addFinal_le r0 role text i t tr) (h r0)

theorem transcriptInvariant_applyOp (i t : Nat) (op : TranscriptOp)
    (tr : List TranscriptEntry) (h : transcriptInvariant tr) :
    transcriptInvariant (applyTranscriptOp i t op tr) := by
  cases op with
  | interim r s => exact transcriptInvariant_addInterim r s i t tr h
  | finalize r s => exact transcriptInvariant_addFinal r s i t tr h
  | clear =>
    intro r
    simp [applyTranscriptOp, interimCount]

theorem transcriptInvariant_run (ops : List ((Nat × Nat) × TranscriptOp))
    (tr : List TranscriptEntry) (h : transcriptInvariant tr) :
    transcriptInvariant (runTranscriptOps ops tr) := by
  induction ops generalizing tr with
  | nil => exact h
  | cons x rest ih =>
    exact ih (applyTranscriptOp x.1.1 x.1.2 x.2 tr)
      (transcriptInvariant_applyOp x.1.1 x.1.2 x.2 tr h)

/-- C3: in every transcript state reachable through the store's mutations,
each role has at most one interim entry; `addFinalTranscript` always
removes the role's interim entries and appends a final entry; and the
entries view of the transcript snapshot never contains a non-final
entry. -/
theorem transcript_interim_final_invariants :
    (∀ ops : List ((Nat × Nat) × TranscriptOp),
      transcriptInvariant (runTranscriptOps ops [])) ∧
    (∀ (r : Role) (s : String) (i t : Nat) (tr : List TranscriptEntry),
      interimCount r (addFinalTranscript r s i t tr) = 0 ∧
      (addFinalTranscript r s i t tr).getLast? =
        some { id := i, role := r, text := s, atTime := t, final := true }) ∧
    (∀ tr : List TranscriptEntry,
      (getTranscriptSnapshotView tr).entries.all (fun e => e.final) = true) := by
  refine ⟨?_, ?_, ?_⟩
  · intro ops
    exact transcriptInvariant_run ops [] (fun r => by simp [interimCount])
  · intro r s i t tr
    refine ⟨interimCount_addFinal_self r s i t tr, ?_⟩
    unfold addFinalTranscript
    exact List.getLast?_concat _
  · intro tr
    simp [getTranscriptSnapshotView, List.all_eq_true, List.mem_filter]
